import Mathlib

/-!
Verification of the `Converter` component (src/Converter.jsx).

The component's `convert` function builds an ffmpeg argument list from the
three UI option strings (`format`, `bitDepth`, `sampleRate`), writes the
selected file into the engine's virtual storage, executes the engine, and
on success triggers a download.  We embed the argument-building logic as a
pure function on strings and the workflow as a function from an application
state plus an environment (selected file, whether the copy step succeeds,
whether engine execution succeeds) to an observable outcome.
-/

/-- Argument list built by `convert` (src/Converter.jsx lines 58-90):
starts with `['-i','input']`, appends `['-ar', sampleRate]`, then branches
on `format` ('wav' appends a codec pair depending on `bitDepth`; 'flac'
appends nothing; 'mp3' appends `['-b:a','320k']`), and finally appends the
output filename `output.<format>`. -/
def buildArgs (format bitDepth sampleRate : String) : List String :=
  let args : List String := ["-i", "input"]
  let args := args ++ ["-ar", sampleRate]
  let args :=
    if format = "wav" then
      let args := if bitDepth = "16" then args ++ ["-c:a", "pcm_s16le"] else args
      let args := if bitDepth = "24" then args ++ ["-c:a", "pcm_s24le"] else args
      if bitDepth = "32" then args ++ ["-c:a", "pcm_f32le"] else args
    else if format = "flac" then
      args
    else if format = "mp3" then
      args ++ ["-b:a", "320k"]
    else
      args
  args ++ ["output." ++ format]

/-- Output filename declared by `convert` (line 65): `output.<format>`. -/
def outputFilename (format : String) : String := "output." ++ format

/-- Number of adjacent occurrences of the token pair `(a, b)` in a token
list (used to state "the codec pair appears exactly once"). -/
def pairCount (a b : String) : List String → Nat
  | x :: y :: rest => (if x = a ∧ y = b then 1 else 0) + pairCount a b (y :: rest)
  | _ => 0

/-- Selected input file: raw bytes (a name is irrelevant to the logic). -/
structure InputFile where
  bytes : List Nat
deriving Repr, DecidableEq

/-- Engine virtual storage: a flat list of named byte buffers. -/
def Storage := List (String × List Nat)

/-- Write a buffer under a name, overwriting any prior content. -/
def writeStore (st : Storage) (name : String) (data : List Nat) : Storage :=
  (name, data) :: (st : List (String × List Nat)).filter (fun p => p.1 ≠ name)

/-- Read the buffer stored under a name, if any. -/
def readStore (st : Storage) (name : String) : Option (List Nat) :=
  ((st : List (String × List Nat)).find? (fun p => p.1 = name)).map Prod.snd

/-- Mutable component state touched by `convert`: the busy flag
(`isLoading`), the diagnostic log text (`logMessage`), and the engine's
virtual storage. -/
structure AppState where
  isLoading : Bool
  logMessage : String
  storage : Storage

/-- Environment of one `convert` call: the file selected in the picker
(`none` when `fileInput.files[0]` is undefined), whether the
`fetchFile`/`writeFile` copy step succeeds, whether the guarded
`exec`/`readFile`/download block succeeds, and the output bytes the engine
produces on success. -/
structure ConvertEnv where
  file : Option InputFile
  copyOk : Bool
  execOk : Bool
  outBytes : List Nat

/-- Download artifact synthesized on success (lines 101-106). -/
structure Download where
  mime : String
  filename : String
  data : List Nat
deriving Repr, DecidableEq

/-- Observable outcome of one `convert` call: the final component state,
whether the blocking `alert` fired, whether the input was written into
engine storage, whether the engine was invoked, the download artifact (if
any), and whether the async function terminated by rejecting with an
uncaught exception. -/
structure ConvertOutcome where
  state : AppState
  alerted : Bool
  wroteInput : Bool
  execInvoked : Bool
  download : Option Download
  threw : Bool

/-- The `convert` workflow (src/Converter.jsx lines 43-113).  With no file
selected it alerts and returns at once.  Otherwise it sets `isLoading`,
awaits the copy of the file's bytes into storage under `'input'` (this
await is outside the try/catch: a rejection here propagates and the
trailing `setIsLoading(false)` never runs), builds the argument list, and
runs the try block: on success it writes the engine output under the
output filename, reads it back and triggers the download; on failure the
catch sets the fixed log message and produces no download.  Either way the
final statement resets `isLoading` to false. -/
def convert (s : AppState) (format bitDepth sampleRate : String)
    (env : ConvertEnv) : ConvertOutcome :=
  match env.file with
  | none =>
      { state := s, alerted := true, wroteInput := false,
        execInvoked := false, download := none, threw := false }
  | some file =>
      let s1 : AppState := { s with isLoading := true }
      if env.copyOk then
        let s2 : AppState :=
          { s1 with storage := writeStore s1.storage "input" file.bytes }
        let outName := outputFilename format
        if env.execOk then
          let s3 : AppState :=
            { s2 with storage := writeStore s2.storage outName env.outBytes }
          let dl : Download :=
            { mime := "audio/" ++ format
              filename := "convertido_" ++ sampleRate ++ "Hz_" ++ bitDepth
                  ++ "bit." ++ format
              data := env.outBytes }
          { state := { s3 with isLoading := false }, alerted := false,
            wroteInput := true, execInvoked := true, download := some dl,
            threw := false }
        else
          { state := { s2 with isLoading := false
                               logMessage := "Error durante la conversión." },
            alerted := false, wroteInput := true, execInvoked := true,
            download := none, threw := false }
      else
        { state := s1, alerted := false, wroteInput := false,
          execInvoked := false, download := none, threw := true }

/-- C1: with targetFormat = wav, bitDepth '16'/'24'/'32' each place their
codec pair ('-c:a', pcm id) exactly once in the token sequence, and any
other bitDepth inserts no codec pair at all (the tokens are just the base
sequence). -/
theorem wav_codec_selection (bitDepth sampleRate : String) :
    pairCount "-c:a" "pcm_s16le" (buildArgs "wav" bitDepth sampleRate)
        = (if bitDepth = "16" then 1 else 0) ∧
    pairCount "-c:a" "pcm_s24le" (buildArgs "wav" bitDepth sampleRate)
        = (if bitDepth = "24" then 1 else 0) ∧
    pairCount "-c:a" "pcm_f32le" (buildArgs "wav" bitDepth sampleRate)
        = (if bitDepth = "32" then 1 else 0) ∧
    (bitDepth ≠ "16" → bitDepth ≠ "24" → bitDepth ≠ "32" →
      buildArgs "wav" bitDepth sampleRate
          = ["-i", "input", "-ar", sampleRate, "output.wav"]) := by
  unfold buildArgs
  split_ifs <;> simp_all [pairCount]

/-- Witness for C1 at concrete inputs: bitDepth '8' inserts no codec
pair. -/
theorem wav_codec_selection_witness :
    buildArgs "wav" "8" "44100"
        = ["-i", "input", "-ar", "44100", "output.wav"] :=
  (wav_codec_selection "8" "44100").2.2.2 (by decide) (by decide) (by decide)

/-- C2: with targetFormat = mp3 the token sequence is always
`['-i','input','-ar',sampleRate,'-b:a','320k','output.mp3']`: the bitrate
pair is present, no '-c:a' token appears (checked at both UI sample
rates), and the tokens do not depend on bitDepth. -/
theorem mp3_constant_bitrate (bitDepth sampleRate : String) :
    buildArgs "mp3" bitDepth sampleRate
        = ["-i", "input", "-ar", sampleRate, "-b:a", "320k", "output.mp3"] ∧
    pairCount "-b:a" "320k" (buildArgs "mp3" bitDepth sampleRate) = 1 ∧
    "-c:a" ∉ buildArgs "mp3" bitDepth "44100" ∧
    "-c:a" ∉ buildArgs "mp3" bitDepth "48000" ∧
    buildArgs "mp3" bitDepth sampleRate = buildArgs "mp3" "16" sampleRate := by
  unfold buildArgs
  split_ifs <;> simp_all [pairCount]

/-- C3: with targetFormat = flac the token sequence is exactly the input
pair, the sample-rate pair and the output filename, for every bitDepth
(in particular '24' and '32'): no codec-forcing pair is inserted. -/
theorem flac_no_codec (bitDepth sampleRate : String) :
    buildArgs "flac" bitDepth sampleRate
        = ["-i", "input", "-ar", sampleRate, "output.flac"] ∧
    pairCount "-c:a" "pcm_s16le" (buildArgs "flac" bitDepth sampleRate) = 0 ∧
    pairCount "-c:a" "pcm_s24le" (buildArgs "flac" bitDepth sampleRate) = 0 ∧
    pairCount "-c:a" "pcm_f32le" (buildArgs "flac" bitDepth sampleRate) = 0 := by
  unfold buildArgs
  split_ifs <;> simp_all [pairCount]

/-- C4: for every option combination the token sequence starts with
`['-i','input']` immediately followed by `['-ar', sampleRate]` with
sampleRate verbatim, and its final token is `output.<format>`, which
equals the declared output filename. -/
theorem tokens_frame (format bitDepth sampleRate : String) :
    (∃ mid : List String,
      buildArgs format bitDepth sampleRate
          = ["-i", "input", "-ar", sampleRate] ++ mid
              ++ ["output." ++ format]) ∧
    (buildArgs format bitDepth sampleRate).getLast?
        = some (outputFilename format) := by
  unfold buildArgs outputFilename
  constructor
  · split_ifs <;> exact ⟨_, rfl⟩
  · split_ifs <;> simp

/-- C5: for a targetFormat outside {wav, flac, mp3} and any bitDepth the
builder still returns a token sequence, namely exactly
`['-i','input','-ar',sampleRate,'output.<format>']` with no codec and no
bitrate directive. -/
theorem unknown_format_total (format bitDepth sampleRate : String)
    (h1 : format ≠ "wav") (h2 : format ≠ "flac") (h3 : format ≠ "mp3") :
    buildArgs format bitDepth sampleRate
        = ["-i", "input", "-ar", sampleRate, "output." ++ format] := by
  unfold buildArgs
  split_ifs <;> simp_all

/-- Witness for C5 at the concrete unrecognized format 'ogg'. -/
theorem unknown_format_total_witness :
    buildArgs "ogg" "16" "44100"
        = ["-i", "input", "-ar", "44100", "output.ogg"] :=
  unknown_format_total "ogg" "16" "44100" (by decide) (by decide) (by decide)

/-- C6: when the guarded engine-execution block fails, the workflow sets
the log state to the fixed failure message, triggers no download, leaves
the already-written input in engine storage, does not re-throw, and ends
with the busy flag false. -/
theorem exec_failure_handling (s : AppState)
    (format bitDepth sampleRate : String) (env : ConvertEnv)
    (file : InputFile) (hf : env.file = some file)
    (hc : env.copyOk = true) (he : env.execOk = false) :
    (convert s format bitDepth sampleRate env).state.logMessage
        = "Error durante la conversión." ∧
    (convert s format bitDepth sampleRate env).download = none ∧
    readStore (convert s format bitDepth sampleRate env).state.storage
        "input" = some file.bytes ∧
    (convert s format bitDepth sampleRate env).threw = false ∧
    (convert s format bitDepth sampleRate env).state.isLoading = false := by
  simp [convert, hf, hc, he, readStore, writeStore]

/-- Witness for C6: a concrete run whose exec step fails. -/
theorem exec_failure_handling_witness :
    (convert ⟨false, "Listo para convertir", []⟩ "wav" "16" "44100"
        ⟨some ⟨[1, 2]⟩, true, false, []⟩).state.logMessage
        = "Error durante la conversión." ∧
    (convert ⟨false, "Listo para convertir", []⟩ "wav" "16" "44100"
        ⟨some ⟨[1, 2]⟩, true, false, []⟩).download = none ∧
    readStore (convert ⟨false, "Listo para convertir", []⟩ "wav" "16"
        "44100" ⟨some ⟨[1, 2]⟩, true, false, []⟩).state.storage "input"
        = some [1, 2] ∧
    (convert ⟨false, "Listo para convertir", []⟩ "wav" "16" "44100"
        ⟨some ⟨[1, 2]⟩, true, false, []⟩).threw = false ∧
    (convert ⟨false, "Listo para convertir", []⟩ "wav" "16" "44100"
        ⟨some ⟨[1, 2]⟩, true, false, []⟩).state.isLoading = false :=
  exec_failure_handling ⟨false, "Listo para convertir", []⟩ "wav" "16"
    "44100" ⟨some ⟨[1, 2]⟩, true, false, []⟩ ⟨[1, 2]⟩ rfl rfl rfl

/-- C7: with no file selected the workflow alerts and returns at once:
nothing is written to engine storage, the engine is never invoked, and no
download is produced. -/
theorem missing_file_guard (s : AppState)
    (format bitDepth sampleRate : String) (env : ConvertEnv)
    (hf : env.file = none) :
    (convert s format bitDepth sampleRate env).alerted = true ∧
    (convert s format bitDepth sampleRate env).wroteInput = false ∧
    (convert s format bitDepth sampleRate env).execInvoked = false ∧
    (convert s format bitDepth sampleRate env).download = none ∧
    (convert s format bitDepth sampleRate env).state.storage
        = s.storage := by
  simp [convert, hf]

/-- Witness for C7: a concrete run with no selected file. -/
theorem missing_file_guard_witness :
    (convert ⟨false, "Listo para convertir", []⟩ "wav" "16" "44100"
        ⟨none, true, true, []⟩).alerted = true ∧
    (convert ⟨false, "Listo para convertir", []⟩ "wav" "16" "44100"
        ⟨none, true, true, []⟩).wroteInput = false ∧
    (convert ⟨false, "Listo para convertir", []⟩ "wav" "16" "44100"
        ⟨none, true, true, []⟩).execInvoked = false ∧
    (convert ⟨false, "Listo para convertir", []⟩ "wav" "16" "44100"
        ⟨none, true, true, []⟩).download = none ∧
    (convert ⟨false, "Listo para convertir", []⟩ "wav" "16" "44100"
        ⟨none, true, true, []⟩).state.storage = [] :=
  missing_file_guard ⟨false, "Listo para convertir", []⟩ "wav" "16"
    "44100" ⟨none, true, true, []⟩ rfl

/-- C8 counterexample: a concrete run past the file-selected check whose
input-copy step fails terminates (by rejecting) with the busy flag still
true, so the flag is NOT false on every failure path. -/
theorem busy_flag_copy_failure_cex :
    (convert ⟨false, "Listo para convertir", []⟩ "wav" "16" "44100"
        ⟨some ⟨[1, 2]⟩, false, true, []⟩).threw = true ∧
    (convert ⟨false, "Listo para convertir", []⟩ "wav" "16" "44100"
        ⟨some ⟨[1, 2]⟩, false, true, []⟩).state.isLoading = true :=
  ⟨rfl, rfl⟩

/-- C8 amended: past the file-selected check the busy flag is false on
every normally-terminating path (success or caught engine failure), but a
failure while copying the input into engine storage is uncaught — the
workflow rejects and the busy flag remains true. -/
theorem busy_flag_bracketing (s : AppState)
    (format bitDepth sampleRate : String) (env : ConvertEnv)
    (file : InputFile) (hf : env.file = some file) :
    ((convert s format bitDepth sampleRate env).threw = false →
      (convert s format bitDepth sampleRate env).state.isLoading
          = false) ∧
    ((convert s format bitDepth sampleRate env).threw = true →
      (convert s format bitDepth sampleRate env).state.isLoading
          = true) ∧
    (env.copyOk = false →
      (convert s format bitDepth sampleRate env).threw = true) := by
  rcases env with ⟨f, copyOk, execOk, outBytes⟩
  cases hf
  cases copyOk <;> cases execOk <;> simp [convert]

/-- Witness for C8 amended: a concrete successful run ends with the busy
flag false. -/
theorem busy_flag_bracketing_witness :
    (convert ⟨false, "Listo para convertir", []⟩ "wav" "16" "44100"
        ⟨some ⟨[1, 2]⟩, true, true, [3]⟩).state.isLoading = false :=
  (busy_flag_bracketing ⟨false, "Listo para convertir", []⟩ "wav" "16"
    "44100" ⟨some ⟨[1, 2]⟩, true, true, [3]⟩ ⟨[1, 2]⟩ rfl).1 rfl

/-- C9: on a successful conversion the download artifact has MIME type
`audio/<format>` and filename
`convertido_<sampleRate>Hz_<bitDepth>bit.<format>`, for every option
combination (bitDepth is embedded even when format is mp3). -/
theorem success_download (s : AppState)
    (format bitDepth sampleRate : String) (env : ConvertEnv)
    (file : InputFile) (hf : env.file = some file)
    (hc : env.copyOk = true) (he : env.execOk = true) :
    (convert s format bitDepth sampleRate env).download
        = some { mime := "audio/" ++ format
                 filename := "convertido_" ++ sampleRate ++ "Hz_"
                     ++ bitDepth ++ "bit." ++ format
                 data := env.outBytes } := by
  simp [convert, hf, hc, he]

/-- Witness for C9 at format mp3, bitDepth '24': the name still embeds
the bit depth. -/
theorem success_download_witness :
    (convert ⟨false, "Listo para convertir", []⟩ "mp3" "24" "48000"
        ⟨some ⟨[1, 2]⟩, true, true, [3]⟩).download
        = some { mime := "audio/mp3"
                 filename := "convertido_48000Hz_24bit.mp3"
                 data := [3] } :=
  success_download ⟨false, "Listo para convertir", []⟩ "mp3" "24" "48000"
    ⟨some ⟨[1, 2]⟩, true, true, [3]⟩ ⟨[1, 2]⟩ rfl rfl rfl

/-- C10: on the missing-input-file path the workflow mutates no state at
all: the final state (busy flag, log message, storage) is the initial
state unchanged, the busy flag was never raised, and the only observable
effect is the blocking notification. -/
theorem missing_file_frame (s : AppState)
    (format bitDepth sampleRate : String) (env : ConvertEnv)
    (hf : env.file = none) :
    (convert s format bitDepth sampleRate env).state = s ∧
    (convert s format bitDepth sampleRate env).state.isLoading
        = s.isLoading ∧
    (convert s format bitDepth sampleRate env).state.logMessage
        = s.logMessage ∧
    (convert s format bitDepth sampleRate env).alerted = true ∧
    (convert s format bitDepth sampleRate env).threw = false := by
  simp [convert, hf]

/-- Witness for C10: a concrete run with no selected file leaves the
state untouched. -/
theorem missing_file_frame_witness :
    (convert ⟨false, "Listo para convertir", []⟩ "flac" "32" "48000"
        ⟨none, true, true, []⟩).state
        = ⟨false, "Listo para convertir", []⟩ ∧
    (convert ⟨false, "Listo para convertir", []⟩ "flac" "32" "48000"
        ⟨none, true, true, []⟩).alerted = true :=
  ⟨(missing_file_frame ⟨false, "Listo para convertir", []⟩ "flac" "32"
      "48000" ⟨none, true, true, []⟩ rfl).1,
   (missing_file_frame ⟨false, "Listo para convertir", []⟩ "flac" "32"
      "48000" ⟨none, true, true, []⟩ rfl).2.2.2.1⟩
